import Mathlib

/-!
Verification of the Fronius Modbus hub (`custom_components/fronius_modbus/hub.py`).

The development shallowly embeds the pure computational content of the hub:
Python runtime values are modelled by `PyVal` (ints and floats are carried as
exact rationals; `complex` never occurs at runtime — every numeric value is
produced by a register decode or by arithmetic on such values — and is omitted
from the value domain), the shared data store `self.data` by a partial map
from keys to `PyVal`, and register decoding by explicit arithmetic on 16-bit
words.  Lookup tables that live in the repository's `const.py` (not part of
the sources under verification) are modelled from the specification and are
marked as such.
-/

namespace FroniusModbus

/-- A Python runtime value as it occurs in the hub's data flow:
`None`, `int`, `float` (modelled exactly as a rational), `bool`, or `str`. -/
inductive PyVal where
  | none
  | int (n : ℤ)
  | float (q : ℚ)
  | bool (b : Bool)
  | str (s : String)
  deriving DecidableEq

/-- Python `isinstance(v, (int, float, complex))` — note that in Python `bool` is a
subclass of `int`, so booleans satisfy this check. -/
def isinstanceNum : PyVal → Bool
  | PyVal.int _ => true
  | PyVal.float _ => true
  | PyVal.bool _ => true
  | _ => false

/-- Python `isinstance(v, bool)`. -/
def isinstanceBool : PyVal → Bool
  | PyVal.bool _ => true
  | _ => false

/-- Source `Hub.is_numeric` (hub.py 761-764):
`isinstance(value, (int, float, complex)) and not isinstance(value, bool)`. -/
def is_numeric (value : PyVal) : Bool :=
  isinstanceNum value && !(isinstanceBool value)

/-- Numeric content of a Python value (`bool` converts as 0/1, as in Python
arithmetic).  Only consulted on values passing `isinstanceNum`. -/
def toRat : PyVal → ℚ
  | PyVal.int n => (n : ℚ)
  | PyVal.float q => q
  | PyVal.bool b => if b then 1 else 0
  | _ => 0

/-- Python `==` on the values of our domain: numbers (including `bool`)
compare by numeric value, strings by content, `None` only equals `None`,
and values of unrelated kinds are unequal. -/
def pyEq (a b : PyVal) : Bool :=
  match a, b with
  | PyVal.str x, PyVal.str y => x == y
  | PyVal.none, PyVal.none => true
  | a, b =>
      if isinstanceNum a && isinstanceNum b then toRat a == toRat b else false

/-- Python `<=` between values; numeric operands compare by value.  A
non-numeric operand would raise `TypeError` in Python; every use in the hub
compares values that are numeric by construction, so the `false` default is
never reached. -/
def pyLe (a b : PyVal) : Bool :=
  isinstanceNum a && isinstanceNum b && decide (toRat a ≤ toRat b)

/-- Python 3 `round` to an integer: round half to even (banker's rounding). -/
def pyRoundInt (q : ℚ) : ℤ :=
  if q - (⌊q⌋ : ℚ) < 1/2 then ⌊q⌋
  else if 1/2 < q - (⌊q⌋ : ℚ) then ⌊q⌋ + 1
  else if ⌊q⌋ % 2 = 0 then ⌊q⌋ else ⌊q⌋ + 1

/-- Python 3 `round(q, digits)` for non-negative `digits`. -/
def pyRound (q : ℚ) (digits : ℕ) : ℚ :=
  (pyRoundInt (q * 10 ^ digits) : ℚ) / 10 ^ digits

/-- Python `int(q)`: truncation toward zero. -/
def pyTrunc (q : ℚ) : ℤ :=
  if 0 ≤ q then ⌊q⌋ else -⌊-q⌋

/-- Python `10 ** e` for a number `e`.  Every scale factor in the program is
an INT16 register decode, hence integral; a non-integral exponent would give
an irrational float outside the rational model, so that branch carries an
arbitrary placeholder no theorem relies on. -/
def powTen (e : ℚ) : ℚ :=
  if e.den = 1 then (10 : ℚ) ^ e.num else 0

/-- Source `Hub.calculate_value` (hub.py 371-376): `round(value * 10**sf, digits)`
when both operands pass `is_numeric`, else Python `None`.  Python returns an
`int` when both operands are ints with `sf >= 0`; the model uniformly carries
the exact numeric result as a `float`, with equality claims stated through
Python's numeric `==` (`pyEq`).  The source's `digits` parameter defaults to
2; the model passes it explicitly at every call site. -/
def calculate_value (value sf : PyVal) (digits : ℕ) : PyVal :=
  if is_numeric value && is_numeric sf then
    PyVal.float (pyRound (toRat value * powTen (toRat sf)) digits)
  else
    PyVal.none

/-! ## Register codec

`pymodbus.convert_from_registers`: UINT16 is the word itself, INT16
reinterprets the 16-bit word as two's complement, UINT32 joins two words
big-endian. -/

/-- Reinterpret a 16-bit register word as a signed (two's-complement) value. -/
def int16 (w : ℕ) : ℤ :=
  if w < 32768 then (w : ℤ) else (w : ℤ) - 65536

/-- Join two 16-bit words into a big-endian unsigned 32-bit value. -/
def uint32 (hi lo : ℕ) : ℕ :=
  hi * 65536 + lo

/-- Reinterpret an unsigned 16-bit value as a signed 16-bit integer (used to
read back the two's-complement rate encoding). -/
def toSigned16 (u : ℤ) : ℤ :=
  if 32768 ≤ u then u - 65536 else u

/-! ## The shared data store

`self.data` is a Python dict from string keys to values; absent key models
"never written". -/

/-- The hub's shared data store. -/
def Store : Type := String → Option PyVal

/-- Assignment `self.data[k] = v`. -/
def Store.set (d : Store) (k : String) (v : PyVal) : Store :=
  fun k' => if k' = k then some v else d k'

/-- Lookup `self.data.get(k)`: `None` when the key is absent. -/
def Store.get (d : Store) (k : String) : PyVal :=
  (d k).getD PyVal.none

/-- The empty store (fresh hub, `self.data = dict()`). -/
def Store.empty : Store := fun _ => Option.none

theorem Store.get_set_same (d : Store) (k : String) (v : PyVal) :
    (d.set k v) k = some v := by
  simp [Store.set]

theorem Store.get_set_ne (d : Store) (k k' : String) (v : PyVal) (h : k' ≠ k) :
    (d.set k v) k' = d k' := by
  simp [Store.set, h]

theorem getD_replicate_eq (n i a : ℕ) : (List.replicate n a).getD i a = a := by
  rcases Nat.lt_or_ge i n with h | h
  · simp [List.getD, List.getElem?_replicate, h]
  · simp [List.getD, List.getElem?_replicate, Nat.not_lt.mpr h]

/-! ## Lookup tables from `const.py`

`const.py` is not among the sources under verification; the tables below are
modelled from the specification.  Only their domains and the distinctness of
their string labels matter to any claim — never the exact label text. -/

/-- Modelled from the spec: `STORAGE_CONTROL_MODE` from the missing
`const.py` — raw storage control modes 0=auto/off, 1=charge, 2=discharge,
3=charge-and-discharge (spec section 3); accessed with `.get`, so unknown
raw modes yield Python `None`. -/
def STORAGE_CONTROL_MODE : ℕ → Option String
  | 0 => some "Auto"
  | 1 => some "Charge"
  | 2 => some "Discharge"
  | 3 => some "Charge and Discharge"
  | _ => Option.none

/-- Modelled from the spec: `STORAGE_EXT_CONTROL_MODE` from the missing
`const.py` — extended control-mode labels 0=auto, 1=charge, 2=discharge,
3=charge+discharge, 4=grid-discharge, 5=grid-charge, 6=block-discharge,
7=calibrating (spec section 4.4).  All labels are strings; no claim
depends on their exact text. -/
def STORAGE_EXT_CONTROL_MODE : ℤ → String
  | 0 => "Auto"
  | 1 => "Charge"
  | 2 => "Discharge"
  | 3 => "Charge and Discharge"
  | 4 => "Discharge to Grid"
  | 5 => "Charge from Grid"
  | 6 => "Block Discharging"
  | 7 => "Calibrate"
  | _ => "Undefined"

/-- Modelled from the spec: `GRID_STATUS` from the missing `const.py` — the
four derivable grid-connection outcomes (spec section 4.3): 0 = no
connection, 1 = over-frequency, 2 = island/backup, 3 = grid-connected
normal; accessed with `.get`. -/
def GRID_STATUS : ℕ → Option String
  | 0 => some "No Connection"
  | 1 => some "Over Frequency"
  | 2 => some "Island Backup"
  | 3 => some "Grid Connected"
  | _ => Option.none

/-- Modelled from the spec: `CHARGE_STATUS` from the missing `const.py`
(charge status code labels, spec section 4.3).  Placeholder entries; no
claim depends on them. -/
def CHARGE_STATUS : ℕ → Option String
  | n => if n ≤ 7 then some ("charge status " ++ toString n) else Option.none

/-- Modelled from the spec: `CHARGE_GRID_STATUS` from the missing `const.py`
(grid-charge-set flag labels, spec section 4.3).  Placeholder entries; no
claim depends on them. -/
def CHARGE_GRID_STATUS : ℕ → Option String
  | n => if n ≤ 1 then some ("grid charging " ++ toString n) else Option.none

/-- Python `None` for a missing key, the string for a present one (the result of a
`.get` on one of the tables above). -/
def optStr : Option String → PyVal
  | some s => PyVal.str s
  | Option.none => PyVal.none

/-! ## `Hub.get_registers` (hub.py 334-346)

Outcome of one `read_holding_registers` call: a register list, a
`ModbusIOException` response, or a non-I/O error response. -/

inductive ReadResult where
  | ok (regs : List ℕ)
  | ioError
  | otherError
  deriving DecidableEq

/-- A Python exception escaping `get_registers`. -/
inductive PyExc where
  | typeError (msg : String)
  | attributeError (msg : String)
  | keyError (msg : String)
  deriving DecidableEq

/-- Source `Hub.get_registers` (hub.py 334-346) on the outcome of its (first) read.

On success it returns the registers.  Both error paths raise in the source:

* `data.isError()` with a `ModbusIOException` and `retries < 1` reaches the
  recursive call `self.get_registers(address=address, count=count,
  retries=retries + 1)` (line 340), which omits the required positional
  parameter `unit_id` — Python raises `TypeError` at the call, before any
  second read happens, so the model needs no further read outcomes;
* every other error path (line 342 and line 344) evaluates the f-string
  `f"error reading register: ... unit id: {self._unit_id} ..."`, and `Hub`
  has no attribute `_unit_id` (`__init__` assigns `_inverter_unit_id`), so
  Python raises `AttributeError` inside the logging argument before the
  `return None` at line 345 is reached.

The `Option` result is the surfaced value (`data.registers` or the `return
None` at line 345, which is unreachable). -/
def get_registers (read1 : ReadResult) (retries : ℕ) : Except PyExc (Option (List ℕ)) :=
  match read1 with
  | ReadResult.ok regs => Except.ok (some regs)
  | ReadResult.ioError =>
      if retries < 1 then
        Except.error (PyExc.typeError
          "get_registers() missing 1 required positional argument: unit_id")
      else
        Except.error (PyExc.attributeError "Hub object has no attribute _unit_id")
  | ReadResult.otherError =>
      Except.error (PyExc.attributeError "Hub object has no attribute _unit_id")

/-! ## Polling orchestrator (hub.py 178-183 and 235-290)

Per-cycle control flow of `_refresh_modbus_data` and the subscriber
notification in `async_refresh_modbus_data`, abstracted over the outcome of
each decoder call: a decoder either returns a value (`True`, `False`, or —
for the MPPT decoder's unsupported-module-count path — Python `None`) or
raises. -/

inductive Outcome where
  | ret (v : Option Bool)
  | raised
  deriving DecidableEq

/-- One `try: update_result = decoder() except: update_result = False` step:
the recorded result after running a decoder, given the previous one.  Used
for every decoder except the meter loop. -/
def step (_cur : Option Bool) : Outcome → Option Bool
  | Outcome.ret v => v
  | Outcome.raised => some false

/-- The meter-loop step (hub.py 270-274): on an exception the handler only
logs — the `update_result = False` line is commented out — so the previous
recorded result is kept. -/
def meterStep (cur : Option Bool) : Outcome → Option Bool
  | Outcome.ret v => v
  | Outcome.raised => cur

/-- The inputs a polling cycle reacts to: number of registered subscriber
callbacks, connection state, capability flags and the outcome of each
decoder in the fixed execution order. -/
structure CycleInput where
  entities : ℕ
  connected : Bool
  invOutcome : Outcome
  statusOutcome : Outcome
  settingsOutcome : Outcome
  controlsOutcome : Outcome
  meterConfigured : Bool
  meterOutcomes : List Outcome
  mpptConfigured : Bool
  mpptOutcome : Outcome
  storageConfigured : Bool
  storageOutcome : Outcome

/-- Source `Hub._refresh_modbus_data` (hub.py 235-290): early-out on no entities or
no connection, then the fixed decoder sequence, returning the final
`update_result` (`Option.none` models a Python `None` result). -/
def refresh_modbus_data (c : CycleInput) : Option Bool :=
  if c.entities = 0 then some false
  else if !c.connected then some false
  else
    let r := step (some false) c.invOutcome
    let r := step r c.statusOutcome
    let r := step r c.settingsOutcome
    let r := step r c.controlsOutcome
    let r := if c.meterConfigured then c.meterOutcomes.foldl meterStep r else r
    let r := if c.mpptConfigured then step r c.mpptOutcome else r
    let r := if c.storageConfigured then step r c.storageOutcome else r
    r

/-- Python truthiness of a decoder result (`if result:`). -/
def truthy : Option Bool → Bool
  | some b => b
  | Option.none => false

/-- Source `Hub.async_refresh_modbus_data` (hub.py 178-183): number of
`update_callback()` invocations in one cycle — each registered entity is
called once when the cycle result is truthy, none otherwise. -/
def async_refresh_notifications (c : CycleInput) : ℕ :=
  if truthy (refresh_modbus_data c) then c.entities else 0

/-- The value of an outcome when recorded (`raised` records `False`). -/
def recordedVal : Outcome → Option Bool
  | Outcome.ret v => v
  | Outcome.raised => some false

/-- The returned value of an outcome, when it returned at all. -/
def retVal : Outcome → Option (Option Bool)
  | Outcome.ret v => some v
  | Outcome.raised => Option.none

/-- The last returned (non-raising) outcome of the meter loop, if any. -/
def lastRet : List Outcome → Option (Option Bool)
  | [] => Option.none
  | o :: t => (lastRet t).orElse (fun _ => retVal o)

theorem foldl_meterStep_eq_lastRet (l : List Outcome) (b : Option Bool) :
    l.foldl meterStep b = (lastRet l).getD b := by
  induction l generalizing b with
  | nil => rfl
  | cons o t ih =>
      rw [List.foldl_cons, ih]
      cases h : lastRet t with
      | some v => simp [lastRet, h, Option.orElse]
      | none =>
          cases o with
          | ret v => simp [lastRet, h, Option.orElse, retVal, meterStep]
          | raised => simp [lastRet, h, Option.orElse, retVal, meterStep]

/-- The result recorded by the end of a cycle that ran its decoders, read
off from the end of the fixed decoder order: the storage outcome if storage
is configured, else the MPPT outcome if configured, else the last returning
meter outcome if meters are configured and one returned, else the inverter
controls outcome. -/
def lastRecordedResult (c : CycleInput) : Option Bool :=
  if c.storageConfigured then recordedVal c.storageOutcome
  else if c.mpptConfigured then recordedVal c.mpptOutcome
  else if c.meterConfigured then
    (lastRet c.meterOutcomes).getD (recordedVal c.controlsOutcome)
  else recordedVal c.controlsOutcome

/-! ## Meter decoder (`Hub.read_meter_data`, hub.py 690-759) -/

/-- Result of one meter decode: the data store after all writes performed
(Python mutates `self.data` in place, so writes before a raise persist),
the exception if one was raised, and whether the grid-status error log at
hub.py 754 fired. -/
structure MeterResult where
  store : Store
  raised : Option PyExc
  errorLogged : Bool

/-- The grid-connection status block of `Hub.read_meter_data`
(hub.py 733-757), as a function of the meter frequency (the local
`m_frequency`) and the inverter frequency (`self.data["line_frequency"]`).
Returns the value stored into `grid_status` together with the
error-logged flag.  `status_str` starts as the *empty string*, so the
`if status_str is None` error branch can fire only if one of the
`GRID_STATUS.get` lookups returned `None`. -/
def gridStatusDerivation (m_frequency i_frequency : PyVal) : PyVal × Bool :=
  let status0 : PyVal := PyVal.str ""
  let status1 :=
    if i_frequency ≠ PyVal.none ∧ is_numeric i_frequency then
      if 48 < toRat i_frequency ∧ toRat i_frequency < 52 then optStr (GRID_STATUS 3)
      else if 52 < toRat i_frequency ∧ toRat i_frequency < 54 then optStr (GRID_STATUS 1)
      else if toRat i_frequency < 1 then
        if m_frequency ≠ PyVal.none ∧ is_numeric m_frequency then
          if 48 < toRat m_frequency then optStr (GRID_STATUS 2)
          else if toRat m_frequency < 1 then optStr (GRID_STATUS 0)
          else status0
        else status0
      else status0
    else status0
  if status1 = PyVal.none then (PyVal.none, true) else (status1, false)

/-- Source `Hub.read_meter_data` (hub.py 690-759) on an already-fetched register
block (`regs`, 103 words; `regs is None` is handled by the caller).  Fields
are decoded at their fixed offsets; for the primary prefix `"m1_"` the house
load and the grid status are derived in addition.  The
`self.data["line_frequency"]` subscript at line 735 raises `KeyError` when
the inverter electrical decoder has never written that key. -/
def read_meter_data ( pref : String) (store : Store) (regs : List ℕ) : MeterResult :=
  let w := fun i => regs.getD i 0
  let acpower := calculate_value (PyVal.int (int16 (w 16))) (PyVal.int (int16 (w 20))) 2
  let m_frequency := calculate_value (PyVal.int (int16 (w 14))) (PyVal.int (int16 (w 15))) 2
  let d := store.set ( pref ++ "PhVphA")
    (calculate_value (PyVal.int (int16 (w 6))) (PyVal.int (int16 (w 13))) 1)
  let d := d.set ( pref ++ "PhVphB")
    (calculate_value (PyVal.int (int16 (w 7))) (PyVal.int (int16 (w 13))) 1)
  let d := d.set ( pref ++ "PhVphC")
    (calculate_value (PyVal.int (int16 (w 8))) (PyVal.int (int16 (w 13))) 1)
  let d := d.set ( pref ++ "PPV")
    (calculate_value (PyVal.int (int16 (w 9))) (PyVal.int (int16 (w 13))) 1)
  let d := d.set ( pref ++ "exported")
    (calculate_value (PyVal.int (uint32 (w 36) (w 37))) (PyVal.int (int16 (w 52))) 2)
  let d := d.set ( pref ++ "imported")
    (calculate_value (PyVal.int (uint32 (w 44) (w 45))) (PyVal.int (int16 (w 52))) 2)
  let d := d.set ( pref ++ "line_frequency") m_frequency
  let d := d.set ( pref ++ "power") acpower
  if pref = "m1_" then
    let inverter_acpower := d.get "acpower"
    let d :=
      if acpower ≠ PyVal.none ∧ inverter_acpower ≠ PyVal.none then
        if is_numeric acpower && is_numeric inverter_acpower then
          d.set "load" (PyVal.float (pyRound (toRat acpower + toRat inverter_acpower) 2))
        else d
      else d
    match d "line_frequency" with
    | Option.none =>
        { store := d, raised := some (PyExc.keyError "line_frequency"), errorLogged := false }
    | some i_frequency =>
        let gs := gridStatusDerivation m_frequency i_frequency
        { store := d.set "grid_status" gs.1, raised := Option.none, errorLogged := gs.2 }
  else
    { store := d, raised := Option.none, errorLogged := false }

/-- The meter stage of a polling cycle (hub.py 268-274): for each configured
meter unit id, in order, run the meter decoder on that unit's register block
— with the *constant* keyword argument `meter_prefix="m1_"` of line 271.
Exceptions are caught by the surrounding `try` and the store retains the
writes made before the raise, which is exactly `MeterResult.store`. -/
def meterCyclePass (store : Store) (meterUnitIds : List ℕ) (regsOf : ℕ → List ℕ) : Store :=
  meterUnitIds.foldl (fun s uid => (read_meter_data "m1_" s (regsOf uid)).store) store

/-! ## MPPT decoder (`Hub.read_mppt_data`, hub.py 534-580) -/

/-- Python `+` on two hub values.  In the MPPT decoder both operands are
always numeric (`calculate_value` on integer decodes); the non-numeric
fallback is unreachable there. -/
def pyAdd (a b : PyVal) : PyVal :=
  if isinstanceNum a && isinstanceNum b then PyVal.float (toRat a + toRat b) else PyVal.none

/-- Python `-` on two hub values; see `pyAdd`. -/
def pySub (a b : PyVal) : PyVal :=
  if isinstanceNum a && isinstanceNum b then PyVal.float (toRat a - toRat b) else PyVal.none

/-- Source `Hub.read_mppt_data` (hub.py 534-580) on an already-fetched register
block (88 words).  When the module-count word `N` (offset 6) is not 4 the
decoder logs and `return`s Python `None` before any store write; otherwise
it writes the four module powers, the derived `pv_power` and
`storage_power`, and the four lifetime energies, and returns `True`. -/
def read_mppt_data (store : Store) (regs : List ℕ) : Store × PyVal :=
  let w := fun i => regs.getD i 0
  let DCW_SF := int16 (w 2)
  let DCWH_SF := int16 (w 3)
  let N := w 6
  if N ≠ 4 then (store, PyVal.none)
  else
    let mppt1_power := calculate_value (PyVal.int (w 19)) (PyVal.int DCW_SF) 2
    let mppt2_power := calculate_value (PyVal.int (w 39)) (PyVal.int DCW_SF) 2
    let mppt3_power := calculate_value (PyVal.int (w 59)) (PyVal.int DCW_SF) 2
    let mppt4_power := calculate_value (PyVal.int (w 79)) (PyVal.int DCW_SF) 2
    let mppt1_lfte := calculate_value (PyVal.int (uint32 (w 20) (w 21))) (PyVal.int DCWH_SF) 2
    let mppt2_lfte := calculate_value (PyVal.int (uint32 (w 40) (w 41))) (PyVal.int DCWH_SF) 2
    let mppt3_lfte := calculate_value (PyVal.int (uint32 (w 60) (w 61))) (PyVal.int DCWH_SF) 2
    let mppt4_lfte := calculate_value (PyVal.int (uint32 (w 80) (w 81))) (PyVal.int DCWH_SF) 2
    let d := store.set "mppt1_power" mppt1_power
    let d := d.set "mppt2_power" mppt2_power
    let d := d.set "mppt3_power" mppt3_power
    let d := d.set "mppt4_power" mppt4_power
    let d := d.set "pv_power" (pyAdd mppt1_power mppt2_power)
    let d := d.set "storage_power" (pySub mppt4_power mppt3_power)
    let d := d.set "mppt1_lfte" mppt1_lfte
    let d := d.set "mppt2_lfte" mppt2_lfte
    let d := d.set "mppt3_lfte" mppt3_lfte
    let d := d.set "mppt4_lfte" mppt4_lfte
    (d, PyVal.bool true)

/-! ## Storage control state machine (hub.py 582-688 and 766-873) -/

/-- The four storage registers the command path writes.  Their numeric
Modbus addresses live in the missing `const.py`; only their identity
matters. -/
inductive StorageReg where
  | ctrlMode
  | minimumReserve
  | dischargeRate
  | chargeRate
  deriving DecidableEq

/-- The hub state the storage logic touches: the shared data store, the
cached `self.storage_extended_control_mode` integer, and the accumulated
register writes sent to the inverter (in order). -/
structure HubState where
  data : Store
  storageExtMode : ℤ
  writes : List (StorageReg × ℤ)

/-- Source `Hub.set_storage_control_mode` (hub.py 766-770): modes outside
`[0,1,2,3]` are rejected with a log and no write. -/
def set_storage_control_mode (st : HubState) (mode : ℤ) : HubState :=
  if mode = 0 ∨ mode = 1 ∨ mode = 2 ∨ mode = 3 then
    { st with writes := st.writes ++ [(StorageReg.ctrlMode, mode)] }
  else st

/-- Source `Hub.set_minimum_reserve` (hub.py 772-777): requests below 5% are
rejected with a log and no write; otherwise `round(minimum_reserve * 100)`
is written. -/
def set_minimum_reserve (st : HubState) (minimum_reserve : ℚ) : HubState :=
  if minimum_reserve < 5 then st
  else { st with
    writes := st.writes ++ [(StorageReg.minimumReserve, pyRoundInt (minimum_reserve * 100))] }

/-- Source `Hub.set_discharge_rate` (hub.py 788-793): a negative percentage is
encoded as `int(65536 + (discharge_rate * 100))`, a non-negative one as
`int(round(discharge_rate * 100))`. -/
def set_discharge_rate (st : HubState) (discharge_rate : ℚ) : HubState :=
  let v := if discharge_rate < 0 then pyTrunc (65536 + discharge_rate * 100)
           else pyRoundInt (discharge_rate * 100)
  { st with writes := st.writes ++ [(StorageReg.dischargeRate, v)] }

/-- Source `Hub.set_charge_rate` (hub.py 804-809): same encoding as
`set_discharge_rate`, written to the charge-rate register. -/
def set_charge_rate (st : HubState) (charge_rate : ℚ) : HubState :=
  let v := if charge_rate < 0 then pyTrunc (65536 + charge_rate * 100)
           else pyRoundInt (charge_rate * 100)
  { st with writes := st.writes ++ [(StorageReg.chargeRate, v)] }

/-- Source `Hub.change_settings` (hub.py 811-827).  Python passes ints; the model
carries all numbers as exact floats (`pyEq`-compatible). -/
def change_settings (st : HubState) (mode : ℤ)
    (charge_limit discharge_limit grid_charge_power grid_discharge_power : ℚ)
    (minimum_reserve : Option ℚ) : HubState :=
  let st := set_storage_control_mode st mode
  let st := set_charge_rate st charge_limit
  let st := set_discharge_rate st discharge_limit
  let d := st.data.set "charge_limit" (PyVal.float charge_limit)
  let d := if st.storageExtMode = 4 then d.set "discharge_limit" (PyVal.float 0)
           else d.set "discharge_limit" (PyVal.float discharge_limit)
  let d := if st.storageExtMode = 5 then d.set "charge_limit" (PyVal.float 0)
           else d.set "charge_limit" (PyVal.float charge_limit)
  let d := d.set "grid_charge_power" (PyVal.float grid_charge_power)
  let d := d.set "grid_discharge_power" (PyVal.float grid_discharge_power)
  let st := { st with data := d }
  match minimum_reserve with
  | some r => set_minimum_reserve st r
  | Option.none => st

/-- Source `Hub.set_auto_mode` (hub.py 833-835). -/
def set_auto_mode (st : HubState) : HubState :=
  change_settings st 0 100 100 0 0 Option.none

/-- The extended-control-mode inference chain of
`Hub.read_inverter_storage_data` (hub.py 657-672), first match wins.
`Option.none` models the fall-through for raw modes outside 0..3, where the
local stays Python `None` and the subsequent
`STORAGE_EXT_CONTROL_MODE[None]` subscript raises. -/
def deriveExtMode (storage_control_mode : ℕ) (discharge_power charge_power : ℤ) : Option ℤ :=
  if storage_control_mode = 0 then some 0
  else if (storage_control_mode = 1 ∨ storage_control_mode = 3) ∧ charge_power = 0 then some 7
  else if storage_control_mode = 1 then some 1
  else if (storage_control_mode = 2 ∨ storage_control_mode = 3) ∧ discharge_power < 0 then some 4
  else if (storage_control_mode = 2 ∨ storage_control_mode = 3) ∧ charge_power < 0 then some 5
  else if (storage_control_mode = 2 ∨ storage_control_mode = 3) ∧ discharge_power = 0 then some 6
  else if storage_control_mode = 2 then some 2
  else if storage_control_mode = 3 then some 3
  else Option.none

/-- The calibration-failsafe block of `Hub.read_inverter_storage_data`
(hub.py 676-687), with `ext_control_mode` the *local variable* at line 676:
the freshly computed Python int on a first-observation decode, but the
cached store value — a string label — on every later decode.  The guard is
Python `ext_control_mode == 7`. -/
def failsafeBlock (st : HubState) (ext_control_mode : PyVal)
    (storage_control_mode : ℕ) : HubState :=
  if pyEq ext_control_mode (PyVal.int 7) then
    let soc := st.data.get "soc"
    if storage_control_mode = 2 ∧ pyEq soc (PyVal.int 100) then
      change_settings st 1 0 100 0 0 Option.none
    else if storage_control_mode = 3 ∧ pyLe soc (PyVal.int 5) then
      let st := set_auto_mode st
      let st := set_minimum_reserve st 30
      { st with data := st.data.set "ext_control_mode" (PyVal.str (STORAGE_EXT_CONTROL_MODE 0)),
                storageExtMode := 0 }
    else st
  else st

/-- The field writes and the control-mode debounce block of
`Hub.read_inverter_storage_data` (hub.py 586-652): the register decodes
stored unconditionally, then — only when the cached `control_mode` label is
absent or differs from the newly decoded one — the limit fields derived
from the signs of the discharge/charge power words, and the new
`control_mode` label. -/
def storageDecodeWrites (store : Store) (regs : List ℕ) : Store :=
  let w := fun i => regs.getD i 0
  let storage_control_mode := w 3
  let discharge_power := int16 (w 10)
  let charge_power := int16 (w 11)
  let d := store.set "grid_charging" (optStr (CHARGE_GRID_STATUS (w 15)))
  let d := d.set "charge_status" (optStr (CHARGE_STATUS (w 9)))
  let d := d.set "minimum_reserve" (calculate_value (PyVal.int (w 5)) (PyVal.int (-2)) 2)
  let d := d.set "discharging_power" (calculate_value (PyVal.int discharge_power) (PyVal.int (-2)) 2)
  let d := d.set "charging_power" (calculate_value (PyVal.int charge_power) (PyVal.int (-2)) 2)
  let d := d.set "soc" (calculate_value (PyVal.int (w 6)) (PyVal.int (-2)) 2)
  let d := d.set "max_charge" (calculate_value (PyVal.int (w 0)) (PyVal.int 0) 0)
  let d := d.set "WChaGra" (calculate_value (PyVal.int (w 1)) (PyVal.int 0) 0)
  let d := d.set "WDisChaGra" (calculate_value (PyVal.int (w 2)) (PyVal.int 0) 0)
  let control_mode := d.get "control_mode"
  if control_mode = PyVal.none ∨
      pyEq control_mode (optStr (STORAGE_CONTROL_MODE storage_control_mode)) = false then
    let d :=
      if 0 ≤ discharge_power then
        (d.set "discharge_limit" (PyVal.float ((discharge_power : ℚ) / 100))).set
          "grid_charge_power" (PyVal.float 0)
      else
        (d.set "grid_charge_power" (PyVal.float ((-discharge_power : ℚ) / 100))).set
          "discharge_limit" (PyVal.float 0)
    let d :=
      if 0 ≤ charge_power then
        (d.set "charge_limit" (PyVal.float ((charge_power : ℚ) / 100))).set
          "grid_discharge_power" (PyVal.float 0)
      else
        (d.set "grid_discharge_power" (PyVal.float ((-charge_power : ℚ) / 100))).set
          "charge_limit" (PyVal.float 0)
    d.set "control_mode" (optStr (STORAGE_CONTROL_MODE storage_control_mode))
  else d

/-- Source `Hub.read_inverter_storage_data` (hub.py 582-688) on an already-fetched
register block (24 words): the decode/debounce writes
(`storageDecodeWrites`), then the extended-control-mode caching (lines
654-674) and the calibration failsafe (lines 676-687).  Returns the updated
hub state and the raised exception, if any (writes performed before a raise
persist, as Python mutates `self.data` in place). -/
def read_inverter_storage_data (st : HubState) (regs : List ℕ) : HubState × Option PyExc :=
  let storage_control_mode := regs.getD 3 0
  let discharge_power := int16 (regs.getD 10 0)
  let charge_power := int16 (regs.getD 11 0)
  let d := storageDecodeWrites st.data regs
  let cached := d.get "ext_control_mode"
  if cached = PyVal.none then
    match deriveExtMode storage_control_mode discharge_power charge_power with
    | Option.none =>
        ({ st with data := d }, some (PyExc.keyError "STORAGE_EXT_CONTROL_MODE subscript with None"))
    | some e =>
        let d := d.set "ext_control_mode" (PyVal.str (STORAGE_EXT_CONTROL_MODE e))
        (failsafeBlock { st with data := d, storageExtMode := e } (PyVal.int e)
          storage_control_mode, Option.none)
  else
    (failsafeBlock { st with data := d } cached storage_control_mode, Option.none)

/-! ## Claim theorems -/

/-- C6: for every pair of inputs where either operand fails the numeric
check, `calculate_value` returns Python `None` (never 0; the model is a
total function, so no exception is possible on this path), and for every
pair of numeric operands it returns `round(value * 10**sf, digits)` — the
exponent hypothesis `(toRat sf).den = 1` restricts to integral scale
factors, which covers every call in the program since scale factors are
INT16 register decodes (a non-integral float exponent would denote an
irrational power outside the exact rational model).  The two concrete
instances of the claim hold under Python numeric equality. -/
theorem calculate_value_spec (value sf : PyVal) (digits : ℕ) :
    (¬(is_numeric value = true ∧ is_numeric sf = true) →
        calculate_value value sf digits = PyVal.none ∧
        calculate_value value sf digits ≠ PyVal.int 0 ∧
        calculate_value value sf digits ≠ PyVal.float 0) ∧
    (is_numeric value = true → is_numeric sf = true → (toRat sf).den = 1 →
        calculate_value value sf digits =
          PyVal.float (pyRound (toRat value * 10 ^ (toRat sf).num) digits)) ∧
    pyEq (calculate_value (PyVal.int 1234) (PyVal.int (-2)) 2) (PyVal.float (1234/100)) = true ∧
    pyEq (calculate_value (PyVal.int 100) (PyVal.int 0) 0) (PyVal.int 100) = true := by
  refine ⟨?_, ?_, ?_, ?_⟩
  · intro h
    have hc : (is_numeric value && is_numeric sf) = false := by
      cases hv : is_numeric value <;> cases hs : is_numeric sf <;> simp_all
    simp [calculate_value, hc]
  · intro hv hs hd
    simp only [calculate_value, hv, hs, Bool.and_self, if_pos]
    rw [powTen, if_pos hd]
  · norm_num [calculate_value, is_numeric, isinstanceNum, isinstanceBool, toRat, powTen,
      pyRound, pyRoundInt, pyEq]
  · norm_num [calculate_value, is_numeric, isinstanceNum, isinstanceBool, toRat, powTen,
      pyRound, pyRoundInt, pyEq]

/-- Witness for C6 at concrete inputs: a non-numeric operand (`"x"`) and the
numeric pair `(1234, -2)`. -/
theorem calculate_value_spec_witness :
    calculate_value (PyVal.str "x") (PyVal.int 3) 2 = PyVal.none ∧
    calculate_value (PyVal.int 1234) (PyVal.int (-2)) 2 =
      PyVal.float (pyRound (toRat (PyVal.int 1234) * 10 ^ (toRat (PyVal.int (-2))).num) 2) :=
  ⟨((calculate_value_spec (PyVal.str "x") (PyVal.int 3) 2).1 (by decide)).1,
   (calculate_value_spec (PyVal.int 1234) (PyVal.int (-2)) 2).2.1 (by decide) (by decide)
     (by simp [toRat])⟩

/-- C10: booleans fail `is_numeric` (the source's explicit
`not isinstance(value, bool)` conjunct excludes them even though
`isinstance(True, (int, float, complex))` holds), so `calculate_value`
yields Python `None` whenever either operand is a boolean. -/
theorem is_numeric_bool_spec (b : Bool) (v sf : PyVal) (digits : ℕ) :
    isinstanceNum (PyVal.bool b) = true ∧
    is_numeric (PyVal.bool b) = false ∧
    calculate_value (PyVal.bool b) sf digits = PyVal.none ∧
    calculate_value v (PyVal.bool b) digits = PyVal.none := by
  refine ⟨rfl, rfl, ?_, ?_⟩
  · simp [calculate_value, is_numeric, isinstanceBool]
  · simp [calculate_value, is_numeric, isinstanceBool]

/-- C5: evaluation of `get_registers` at its error paths.  On an I/O-class
error with the fresh retry budget the source's retry call omits the
required `unit_id` parameter and raises `TypeError` instead of retrying
with the same unit id, address and count; on a non-I/O error (and on an
exhausted retry budget) the logging f-string dereferences the nonexistent
attribute `self._unit_id` and raises `AttributeError` instead of returning
the no-data result `None`. -/
theorem get_registers_error_paths :
    get_registers ReadResult.ioError 0 =
      Except.error (PyExc.typeError
        "get_registers() missing 1 required positional argument: unit_id") ∧
    get_registers ReadResult.ioError 1 =
      Except.error (PyExc.attributeError "Hub object has no attribute _unit_id") ∧
    get_registers ReadResult.otherError 0 =
      Except.error (PyExc.attributeError "Hub object has no attribute _unit_id") ∧
    get_registers (ReadResult.ok [1, 2]) 0 = Except.ok (some [1, 2]) :=
  ⟨rfl, rfl, rfl, rfl⟩

/-- C9: for a negative percentage `p` with `-100 ≤ p < 0` that is a whole
number of hundredths (every percentage the round-trip property can speak
about: the register holds an integer), both rate setters write the
two's-complement encoding `65536 + p*100`, and reinterpreting that unsigned
word as a signed 16-bit integer recovers `p*100`; a non-negative
percentage is written as `round(p * 100)`. -/
theorem rate_encoding_roundtrip (st : HubState) (p : ℚ) :
    (-100 ≤ p → p < 0 → (100 * p).den = 1 →
      (set_discharge_rate st p).writes =
        st.writes ++ [(StorageReg.dischargeRate, 65536 + (100 * p).num)] ∧
      (set_charge_rate st p).writes =
        st.writes ++ [(StorageReg.chargeRate, 65536 + (100 * p).num)] ∧
      toSigned16 (65536 + (100 * p).num) = (100 * p).num) ∧
    (0 ≤ p →
      (set_discharge_rate st p).writes =
        st.writes ++ [(StorageReg.dischargeRate, pyRoundInt (p * 100))] ∧
      (set_charge_rate st p).writes =
        st.writes ++ [(StorageReg.chargeRate, pyRoundInt (p * 100))]) := by
  constructor
  · intro hlo hneg hden
    have hcast : ((100 * p).num : ℚ) = 100 * p := (Rat.den_eq_one_iff _).mp hden
    have hnum_lo : (-10000 : ℤ) ≤ (100 * p).num := by
      have : (-10000 : ℚ) ≤ ((100 * p).num : ℚ) := by rw [hcast]; linarith
      exact_mod_cast this
    have hnum_neg : (100 * p).num < 0 := by
      have : ((100 * p).num : ℚ) < 0 := by rw [hcast]; linarith
      exact_mod_cast this
    have henc : pyTrunc (65536 + p * 100) = 65536 + (100 * p).num := by
      have h1 : (65536 : ℚ) + p * 100 = ((65536 + (100 * p).num : ℤ) : ℚ) := by
        push_cast
        rw [hcast]; ring
      have h2 : (0 : ℚ) ≤ 65536 + p * 100 := by linarith
      rw [pyTrunc, if_pos h2, h1, Int.floor_intCast]
    refine ⟨?_, ?_, ?_⟩
    · simp [set_discharge_rate, if_pos hneg, henc]
    · simp [set_charge_rate, if_pos hneg, henc]
    · rw [toSigned16, if_pos (by omega)]
      omega
  · intro hpos
    have h : ¬(p < 0) := not_lt.mpr hpos
    exact ⟨by simp [set_discharge_rate, h], by simp [set_charge_rate, h]⟩

/-- Witness for C9 at `p = -50` from a fresh state: the encoded register
value is `60536 = 65536 - 5000` and decodes back to `-5000` hundredths. -/
theorem rate_encoding_roundtrip_witness :
    (set_discharge_rate ⟨Store.empty, 0, []⟩ (-50)).writes =
      [(StorageReg.dischargeRate, 60536)] ∧
    toSigned16 60536 = -5000 := by
  have hden : ((100 : ℚ) * (-50)).den = 1 := by norm_num
  have h := (rate_encoding_roundtrip ⟨Store.empty, 0, []⟩ (-50)).1
    (by norm_num) (by norm_num) hden
  have hnum : ((100 : ℚ) * (-50)).num = -5000 := by norm_num
  refine ⟨?_, ?_⟩
  · rw [h.1, hnum]; rfl
  · have := h.2.2
    rw [hnum] at this
    simpa using this

/-- C8: when the module-count word (offset 6) differs from 4 the MPPT
decoder returns Python `None` with the data store untouched (no `mppt*`,
`pv_power` or `storage_power` key is written — the whole store is
unchanged); when it equals 4 the decoder returns `True` and derives
`pv_power` as module-1 power plus module-2 power and `storage_power` as
module-4 power minus module-3 power (each module power being the scaled
`calculate_value` of its DC-power word). -/
theorem read_mppt_data_spec (store : Store) (regs : List ℕ) :
    (regs.getD 6 0 ≠ 4 →
      read_mppt_data store regs = (store, PyVal.none)) ∧
    (regs.getD 6 0 = 4 →
      (read_mppt_data store regs).2 = PyVal.bool true ∧
      (read_mppt_data store regs).1 "pv_power" =
        some (pyAdd
          (calculate_value (PyVal.int (regs.getD 19 0)) (PyVal.int (int16 (regs.getD 2 0))) 2)
          (calculate_value (PyVal.int (regs.getD 39 0)) (PyVal.int (int16 (regs.getD 2 0))) 2)) ∧
      (read_mppt_data store regs).1 "storage_power" =
        some (pySub
          (calculate_value (PyVal.int (regs.getD 79 0)) (PyVal.int (int16 (regs.getD 2 0))) 2)
          (calculate_value (PyVal.int (regs.getD 59 0)) (PyVal.int (int16 (regs.getD 2 0))) 2))) := by
  constructor
  · intro h
    rw [read_mppt_data, if_pos h]
  · intro h
    rw [read_mppt_data, if_neg (not_ne_iff.mpr h)]
    refine ⟨rfl, ?_, ?_⟩ <;> simp [Store.set]

/-- Witness for C8: module count 0 (register block of zeros) leaves the
store empty and returns `None`; module count 4 yields `pv_power` and
`storage_power` (all-zero power words scale to 0.0). -/
theorem read_mppt_data_spec_witness :
    read_mppt_data Store.empty (List.replicate 88 0) = (Store.empty, PyVal.none) ∧
    (read_mppt_data Store.empty [0, 0, 0, 0, 0, 0, 4]).1 "pv_power" =
      some (pyAdd (calculate_value (PyVal.int 0) (PyVal.int 0) 2)
                  (calculate_value (PyVal.int 0) (PyVal.int 0) 2)) :=
  ⟨(read_mppt_data_spec Store.empty (List.replicate 88 0)).1 (by decide),
   ((read_mppt_data_spec Store.empty [0, 0, 0, 0, 0, 0, 4]).2 (by decide)).2.1⟩

/-- A cycle with one subscriber and a live connection in which all four
inverter decoders succeed but the storage decoder — the last to run —
raises. -/
def cycleStorageRaises : CycleInput :=
  { entities := 1
    connected := true
    invOutcome := Outcome.ret (some true)
    statusOutcome := Outcome.ret (some true)
    settingsOutcome := Outcome.ret (some true)
    controlsOutcome := Outcome.ret (some true)
    meterConfigured := false
    meterOutcomes := []
    mpptConfigured := false
    mpptOutcome := Outcome.ret (some true)
    storageConfigured := true
    storageOutcome := Outcome.raised }

/-- C2 counterexample: in `cycleStorageRaises` the cycle runs (one
subscriber, connected), four decoders succeed, the last-run decoder fails —
and no subscriber callback is invoked, refuting "a cycle where some
decoders succeed and the last-run decoder fails still triggers the
notification". -/
theorem notification_counterexample :
    cycleStorageRaises.entities = 1 ∧
    cycleStorageRaises.connected = true ∧
    cycleStorageRaises.invOutcome = Outcome.ret (some true) ∧
    cycleStorageRaises.storageOutcome = Outcome.raised ∧
    async_refresh_notifications cycleStorageRaises = 0 :=
  ⟨rfl, rfl, rfl, rfl, by decide⟩

/-- C2 amended: after all decoders run, every registered subscriber is
notified exactly once if and only if the cycle ran (at least one
subscriber, connection up) and the *final recorded* decoder result is
truthy — that is, the result of the last decoder in the fixed order whose
result is recorded (the meter loop's exception handler does not record, so
a raising meter falls back to the previous recorded result); a cycle whose
last-run decoder fails or returns no-data notifies nobody. -/
theorem notification_iff_last_recorded (c : CycleInput) :
    async_refresh_notifications c =
      if c.entities ≠ 0 ∧ c.connected = true ∧ truthy (lastRecordedResult c) = true
      then c.entities else 0 := by
  rcases c with ⟨n, conn, inv, sts, stg, ctl, mc, mo, pc, po, sc, so⟩
  by_cases hn : n = 0
  · subst hn
    simp [async_refresh_notifications, refresh_modbus_data, truthy]
  · cases conn with
    | false =>
        simp [async_refresh_notifications, refresh_modbus_data, truthy, hn]
    | true =>
        have hstep : ∀ (r : Option Bool) (o : Outcome), step r o = recordedVal o := by
          intro r o; cases o <;> rfl
        simp only [async_refresh_notifications, refresh_modbus_data, lastRecordedResult,
          hstep, hn, if_false, Bool.not_true, if_neg (by simp : ¬(false = true)),
          foldl_meterStep_eq_lastRet]
        rcases sc with _ | _ <;> rcases pc with _ | _ <;> rcases mc with _ | _ <;>
          simp [hstep, foldl_meterStep_eq_lastRet, hn]

/-- A numeric value is not Python `None`. -/
theorem is_numeric_ne_none {v : PyVal} (h : is_numeric v = true) : v ≠ PyVal.none := by
  rintro rfl
  simp [is_numeric, isinstanceNum] at h

/-- The store holding only the inverter line frequency 52.0 Hz (the decode
of an inverter cycle that read exactly 52 Hz). -/
def storeIFreq52 : Store := Store.empty.set "line_frequency" (PyVal.float 52)

/-- C3 counterexample: a primary-meter decode with inverter frequency
exactly 52 Hz (the claim's own example of an "other combination") stores
the *empty string* as `grid_status` and does not log an error — refuting
"yields an explicit 'undetermined' status and logs an error".  The
error-logging branch guards on `status_str is None`, but `status_str` is
initialised to `""`, so the branch never fires. -/
theorem grid_status_counterexample :
    storeIFreq52 "line_frequency" = some (PyVal.float 52) ∧
    (read_meter_data "m1_" storeIFreq52 (List.replicate 103 0)).store "grid_status" =
      some (PyVal.str "") ∧
    (read_meter_data "m1_" storeIFreq52 (List.replicate 103 0)).errorLogged = false := by
  have hz : ∀ i, (List.replicate 103 0).getD i 0 = 0 := fun i => getD_replicate_eq 103 i 0
  have hmf : calculate_value (PyVal.int (int16 0)) (PyVal.int (int16 0)) 2 = PyVal.float 0 := by
    norm_num [calculate_value, is_numeric, isinstanceNum, isinstanceBool, toRat, powTen,
      pyRound, pyRoundInt, int16]
  have hgs : gridStatusDerivation (PyVal.float 0) (PyVal.float 52) = (PyVal.str "", false) := by
    norm_num [gridStatusDerivation, is_numeric, isinstanceNum, isinstanceBool, toRat]
    decide
  refine ⟨rfl, ?_, ?_⟩
  · simp [read_meter_data, hz, hmf, hgs, Store.set, Store.get, storeIFreq52, Store.empty]
  · simp [read_meter_data, hz, hmf, hgs, Store.set, Store.get, storeIFreq52, Store.empty]

/-- C3 amended: the four defined outcomes are derived exactly as the claim
states (inverter frequency strictly inside (48,52) ⇒ grid-connected
normal regardless of the meter value; strictly inside (52,54) ⇒
over-frequency; below 1 with numeric meter frequency above 48 ⇒
island/backup; both below 1 ⇒ no connection), but every other combination
— boundary values such as exactly 52 Hz, a meter frequency in [1,48], or a
non-numeric operand — yields the *empty-string* status with **no** error
log: the `status_str is None` error branch is unreachable because
`status_str` starts as `""` and every table lookup is defined, so no decode
ever logs or stores an explicit undetermined status.  The final conjunct
ties the block to the meter decoder: `grid_status` is exactly the block's
result on the decoded meter frequency and the stored inverter frequency. -/
theorem grid_status_amended :
    (∀ m i, is_numeric i = true → 48 < toRat i → toRat i < 52 →
        gridStatusDerivation m i = (optStr (GRID_STATUS 3), false)) ∧
    (∀ m i, is_numeric i = true → 52 < toRat i → toRat i < 54 →
        gridStatusDerivation m i = (optStr (GRID_STATUS 1), false)) ∧
    (∀ m i, is_numeric i = true → toRat i < 1 → is_numeric m = true → 48 < toRat m →
        gridStatusDerivation m i = (optStr (GRID_STATUS 2), false)) ∧
    (∀ m i, is_numeric i = true → toRat i < 1 → is_numeric m = true → toRat m < 1 →
        gridStatusDerivation m i = (optStr (GRID_STATUS 0), false)) ∧
    (∀ m i, is_numeric i = true → ¬(48 < toRat i ∧ toRat i < 52) →
        ¬(52 < toRat i ∧ toRat i < 54) → ¬(toRat i < 1) →
        gridStatusDerivation m i = (PyVal.str "", false)) ∧
    (∀ m i, is_numeric i = true → toRat i < 1 → is_numeric m = true →
        ¬(48 < toRat m) → ¬(toRat m < 1) →
        gridStatusDerivation m i = (PyVal.str "", false)) ∧
    (∀ m i, is_numeric i = true → toRat i < 1 → is_numeric m = false →
        gridStatusDerivation m i = (PyVal.str "", false)) ∧
    (∀ m i, is_numeric i = false → gridStatusDerivation m i = (PyVal.str "", false)) ∧
    (∀ m i, (gridStatusDerivation m i).2 = false ∧ (gridStatusDerivation m i).1 ≠ PyVal.none) ∧
    (∀ (st : Store) (regs : List ℕ) (iv : PyVal), st "line_frequency" = some iv →
        (read_meter_data "m1_" st regs).store "grid_status" =
          some (gridStatusDerivation
            (calculate_value (PyVal.int (int16 (regs.getD 14 0)))
              (PyVal.int (int16 (regs.getD 15 0))) 2) iv).1 ∧
        (read_meter_data "m1_" st regs).errorLogged =
          (gridStatusDerivation
            (calculate_value (PyVal.int (int16 (regs.getD 14 0)))
              (PyVal.int (int16 (regs.getD 15 0))) 2) iv).2) := by
  refine ⟨?_, ?_, ?_, ?_, ?_, ?_, ?_, ?_, ?_, ?_⟩
  · intro m i hi h1 h2
    simp [gridStatusDerivation, is_numeric_ne_none hi, hi, h1, h2, optStr, GRID_STATUS]
  · intro m i hi h1 h2
    have hn1 : ¬(toRat i < 52) := by linarith
    simp [gridStatusDerivation, is_numeric_ne_none hi, hi, h1, h2, hn1, optStr, GRID_STATUS]
  · intro m i hi h1 hm h2
    have hn1 : ¬(48 < toRat i) := by linarith
    have hn52 : ¬(52 < toRat i) := by linarith
    simp [gridStatusDerivation, is_numeric_ne_none hi, hi, h1, hn1, hn52,
      is_numeric_ne_none hm, hm, h2, optStr, GRID_STATUS]
  · intro m i hi h1 hm h2
    have hn1 : ¬(48 < toRat i) := by linarith
    have hn52 : ¬(52 < toRat i) := by linarith
    have hn2 : ¬(48 < toRat m) := by linarith
    simp [gridStatusDerivation, is_numeric_ne_none hi, hi, h1, hn1, hn52,
      is_numeric_ne_none hm, hm, h2, hn2, optStr, GRID_STATUS]
  · intro m i hi h1 h2 h3
    simp [gridStatusDerivation, is_numeric_ne_none hi, hi, h1, h2, h3, optStr, GRID_STATUS]
  · intro m i hi h1 hm h2 h3
    have hn1 : ¬(48 < toRat i) := by linarith
    have hn52 : ¬(52 < toRat i) := by linarith
    simp [gridStatusDerivation, is_numeric_ne_none hi, hi, h1, hn1, hn52,
      is_numeric_ne_none hm, hm, h2, h3, optStr, GRID_STATUS]
  · intro m i hi h1 hm
    have hn1 : ¬(48 < toRat i) := by linarith
    have hn52 : ¬(52 < toRat i) := by linarith
    simp [gridStatusDerivation, is_numeric_ne_none hi, hi, h1, hn1, hn52, hm, optStr,
      GRID_STATUS]
  · intro m i hi
    simp [gridStatusDerivation, hi, optStr, GRID_STATUS]
  · intro m i
    rw [gridStatusDerivation]
    split_ifs <;> simp_all [optStr, GRID_STATUS]
  · intro st regs iv hlf
    rw [read_meter_data]
    simp only [if_pos rfl]
    constructor <;>
      · split_ifs <;>
          simp_all [Store.set, Store.get, hlf]

/-- Witness for C3 at the spec's own example frequencies: 50.0 Hz ⇒
grid-connected normal, 0.0/49.0 ⇒ island/backup, 0.0/0.0 ⇒ no connection,
53.0 ⇒ over-frequency. -/
theorem grid_status_amended_witness :
    gridStatusDerivation (PyVal.float 49) (PyVal.float 50) = (optStr (GRID_STATUS 3), false) ∧
    gridStatusDerivation PyVal.none (PyVal.float 53) = (optStr (GRID_STATUS 1), false) ∧
    gridStatusDerivation (PyVal.float 49) (PyVal.float 0) = (optStr (GRID_STATUS 2), false) ∧
    gridStatusDerivation (PyVal.float 0) (PyVal.float 0) = (optStr (GRID_STATUS 0), false) :=
  ⟨grid_status_amended.1 (PyVal.float 49) (PyVal.float 50) rfl
      (by norm_num [toRat]) (by norm_num [toRat]),
   grid_status_amended.2.1 PyVal.none (PyVal.float 53) rfl
      (by norm_num [toRat]) (by norm_num [toRat]),
   grid_status_amended.2.2.1 (PyVal.float 49) (PyVal.float 0) rfl
      (by norm_num [toRat]) rfl (by norm_num [toRat]),
   grid_status_amended.2.2.2.1 (PyVal.float 0) (PyVal.float 0) rfl
      (by norm_num [toRat]) rfl (by norm_num [toRat])⟩

/-- Meter register block reading 50.00 Hz (frequency word 5000 at offset
14, scale-factor word 65534 = INT16 −2 at offset 15; all other words 0). -/
def regsMeter50 : List ℕ := [0, 0, 0, 0, 0, 0, 0, 0, 0, 0, 0, 0, 0, 0, 5000, 65534]

/-- Meter register block reading 49.00 Hz. -/
def regsMeter49 : List ℕ := [0, 0, 0, 0, 0, 0, 0, 0, 0, 0, 0, 0, 0, 0, 4900, 65534]

/-- Two configured meters: unit id 240 reads 50.00 Hz, unit id 241 reads
49.00 Hz. -/
def regsOfTwoMeters : ℕ → List ℕ := fun uid => if uid = 240 then regsMeter50 else regsMeter49

/-- A store already holding the inverter electrical decode (`acpower`,
`line_frequency`). -/
def storeAfterInverter : Store :=
  (Store.empty.set "acpower" (PyVal.float 100)).set "line_frequency" (PyVal.float 50)

/-- C7: evaluation of the per-cycle meter stage with two configured meters
(positions 1 and 2, unit ids 240 and 241).  The loop at hub.py 269-271
passes the constant prefix `"m1_"` for every meter, so no `m2_` key is ever
written and the second meter's 49.00 Hz decode lands under — and
overwrites — the first meter's `m1_line_frequency` key; the claim requires
the second meter's fields to appear under `m2_`. -/
theorem meter_stage_hardcoded_m1 :
    meterCyclePass storeAfterInverter [240, 241] regsOfTwoMeters "m2_line_frequency" =
      Option.none ∧
    meterCyclePass storeAfterInverter [240, 241] regsOfTwoMeters "m2_power" = Option.none ∧
    meterCyclePass storeAfterInverter [240, 241] regsOfTwoMeters "m1_line_frequency" =
      some (PyVal.float 49) := by
  have h50 : calculate_value (PyVal.int (int16 5000)) (PyVal.int (int16 65534)) 2 =
      PyVal.float 50 := by
    norm_num [calculate_value, is_numeric, isinstanceNum, isinstanceBool, toRat, powTen,
      pyRound, pyRoundInt, int16]
  have h49 : calculate_value (PyVal.int (int16 4900)) (PyVal.int (int16 65534)) 2 =
      PyVal.float 49 := by
    norm_num [calculate_value, is_numeric, isinstanceNum, isinstanceBool, toRat, powTen,
      pyRound, pyRoundInt, int16]
  have h0 : calculate_value (PyVal.int (int16 0)) (PyVal.int (int16 0)) 2 = PyVal.float 0 := by
    norm_num [calculate_value, is_numeric, isinstanceNum, isinstanceBool, toRat, powTen,
      pyRound, pyRoundInt, int16]
  refine ⟨?_, ?_, ?_⟩ <;>
    simp [meterCyclePass, read_meter_data, regsOfTwoMeters, regsMeter50, regsMeter49,
      storeAfterInverter, h50, h49, h0, Store.set, Store.get, Store.empty,
      is_numeric, isinstanceNum, isinstanceBool]

/-! Helper lemmas about the storage decode, shared by the storage-machine
claims. -/

theorem storageDecodeWrites_ext (store : Store) (regs : List ℕ) :
    storageDecodeWrites store regs "ext_control_mode" = store "ext_control_mode" := by
  simp only [storageDecodeWrites]
  split_ifs <;> simp [Store.set]

theorem storageDecodeWrites_soc (store : Store) (regs : List ℕ) :
    storageDecodeWrites store regs "soc" =
      some (calculate_value (PyVal.int (regs.getD 6 0)) (PyVal.int (-2)) 2) := by
  simp only [storageDecodeWrites]
  split_ifs <;> simp [Store.set]

theorem change_settings_ext (st : HubState) (mode : ℤ)
    (cl dl gcp gdp : ℚ) (mr : Option ℚ) :
    (change_settings st mode cl dl gcp gdp mr).data "ext_control_mode" =
      st.data "ext_control_mode" ∧
    (change_settings st mode cl dl gcp gdp mr).storageExtMode = st.storageExtMode := by
  rcases mr with _ | r <;>
    · simp only [change_settings, set_storage_control_mode, set_charge_rate,
        set_discharge_rate, set_minimum_reserve]
      split_ifs <;> simp [Store.set]

theorem pyEq_str_int (s : String) (n : ℤ) : pyEq (PyVal.str s) (PyVal.int n) = false := rfl

theorem failsafeBlock_not_seven (st : HubState) (v : PyVal) (raw : ℕ)
    (h : pyEq v (PyVal.int 7) = false) : failsafeBlock st v raw = st := by
  rw [failsafeBlock, h]
  simp

theorem deriveExtMode_seven (raw : ℕ) (dp cp : ℤ)
    (h : deriveExtMode raw dp cp = some 7) : raw = 1 ∨ raw = 3 := by
  rw [deriveExtMode] at h
  split_ifs at h with h1 h2 h3 h4 h5 h6 h7 h8 <;>
    first
      | (exact h2.1)
      | (simp only [Option.some.injEq] at h; omega)

theorem read_storage_cached_eq (st : HubState) (regs : List ℕ) (v : PyVal)
    (hd : (storageDecodeWrites st.data regs).get "ext_control_mode" = v)
    (hv : ¬(v = PyVal.none)) :
    read_inverter_storage_data st regs =
      (failsafeBlock
        { data := storageDecodeWrites st.data regs, storageExtMode := st.storageExtMode,
          writes := st.writes } v (regs.getD 3 0), Option.none) := by
  simp only [read_inverter_storage_data, hd]
  rw [if_neg hv]

theorem read_storage_fresh_eq (st : HubState) (regs : List ℕ) (e : ℤ)
    (hd : (storageDecodeWrites st.data regs).get "ext_control_mode" = PyVal.none)
    (he : deriveExtMode (regs.getD 3 0) (int16 (regs.getD 10 0))
      (int16 (regs.getD 11 0)) = some e) :
    read_inverter_storage_data st regs =
      (failsafeBlock
        { data := (storageDecodeWrites st.data regs).set "ext_control_mode"
            (PyVal.str (STORAGE_EXT_CONTROL_MODE e)),
          storageExtMode := e, writes := st.writes } (PyVal.int e) (regs.getD 3 0),
        Option.none) := by
  simp only [read_inverter_storage_data, hd]
  rw [if_pos trivial, he]

theorem set_auto_then_reserve_writes (st : HubState) :
    (set_minimum_reserve (set_auto_mode st) 30).writes =
      st.writes ++ [(StorageReg.ctrlMode, 0), (StorageReg.chargeRate, 10000),
        (StorageReg.dischargeRate, 10000), (StorageReg.minimumReserve, 3000)] := by
  simp only [set_minimum_reserve, set_auto_mode, change_settings, set_storage_control_mode,
    set_charge_rate, set_discharge_rate]
  norm_num
  constructor <;> norm_num [pyRoundInt]

/-- C4: the extended control mode is computed at most once per session.  On
a storage decode where the cached `ext_control_mode` key is absent, the
label is derived from `(raw mode, discharge power, charge power)` by the
first-match precedence embodied in `deriveExtMode` — raw=0 → auto(0);
raw∈{1,3} ∧ charge==0 → calibrating(7); raw=1 → charge(1); raw∈{2,3} ∧
discharge<0 → grid-discharge(4); raw∈{2,3} ∧ charge<0 → grid-charge(5);
raw∈{2,3} ∧ discharge==0 → block-discharge(6); raw=2 → discharge(2);
raw=3 → charge-discharge(3) — and cached, both as the store label and as
`storage_extended_control_mode` (excluding the one decode that derives
calibrating with raw mode 3 and soc ≤ 5, where the failsafe immediately and
explicitly invalidates the cache back to auto).  On every decode where a
cached label is already present, the cache is left unchanged regardless of
the current raw mode (e.g. raw transitions 0→2→0 keep the original
label). -/
theorem ext_mode_computed_once (st : HubState) (regs : List ℕ) :
    (∀ s, st.data "ext_control_mode" = some (PyVal.str s) →
        (read_inverter_storage_data st regs).1.data "ext_control_mode" =
          some (PyVal.str s) ∧
        (read_inverter_storage_data st regs).2 = Option.none) ∧
    (st.data "ext_control_mode" = Option.none →
        ∀ e, deriveExtMode (regs.getD 3 0) (int16 (regs.getD 10 0))
            (int16 (regs.getD 11 0)) = some e →
        ¬(e = 7 ∧ regs.getD 3 0 = 3 ∧
            pyLe (calculate_value (PyVal.int (regs.getD 6 0)) (PyVal.int (-2)) 2)
              (PyVal.int 5) = true) →
        (read_inverter_storage_data st regs).1.data "ext_control_mode" =
          some (PyVal.str (STORAGE_EXT_CONTROL_MODE e)) ∧
        (read_inverter_storage_data st regs).1.storageExtMode = e) := by
  constructor
  · intro s hs
    have hd : (storageDecodeWrites st.data regs).get "ext_control_mode" = PyVal.str s := by
      rw [Store.get, storageDecodeWrites_ext, hs]
      rfl
    rw [read_storage_cached_eq st regs (PyVal.str s) hd (by simp),
      failsafeBlock_not_seven _ _ _ (pyEq_str_int s 7)]
    refine ⟨?_, rfl⟩
    show storageDecodeWrites st.data regs "ext_control_mode" = _
    rw [storageDecodeWrites_ext, hs]
  · intro hnone e he hnot
    have hd : (storageDecodeWrites st.data regs).get "ext_control_mode" = PyVal.none := by
      rw [Store.get, storageDecodeWrites_ext, hnone]
      rfl
    have hsoc :
        ((storageDecodeWrites st.data regs).set "ext_control_mode"
            (PyVal.str (STORAGE_EXT_CONTROL_MODE e))).get "soc" =
          calculate_value (PyVal.int (regs.getD 6 0)) (PyVal.int (-2)) 2 := by
      rw [Store.get, Store.get_set_ne _ _ _ _ (by decide), storageDecodeWrites_soc]
      rfl
    rw [read_storage_fresh_eq st regs e hd he]
    by_cases h7 : e = 7
    · subst h7
      have h77 : pyEq (PyVal.int 7) (PyVal.int 7) = true := by decide
      simp only [failsafeBlock, h77, eq_self_iff_true, if_true]
      split_ifs with h2 h3
      · refine ⟨?_, ?_⟩
        · show (change_settings _ 1 0 100 0 0 Option.none).data "ext_control_mode" = _
          rw [(change_settings_ext _ 1 0 100 0 0 Option.none).1]
          exact Store.get_set_same (storageDecodeWrites st.data regs) "ext_control_mode"
            (PyVal.str (STORAGE_EXT_CONTROL_MODE 7))
        · show (change_settings _ 1 0 100 0 0 Option.none).storageExtMode = _
          rw [(change_settings_ext _ 1 0 100 0 0 Option.none).2]
      · exfalso
        refine hnot ⟨rfl, h3.1, ?_⟩
        have h' : pyLe (((storageDecodeWrites st.data regs).set "ext_control_mode"
            (PyVal.str (STORAGE_EXT_CONTROL_MODE 7))).get "soc") (PyVal.int 5) = true := h3.2
        rw [hsoc] at h'
        exact h'
      · exact ⟨Store.get_set_same (storageDecodeWrites st.data regs) "ext_control_mode"
          (PyVal.str (STORAGE_EXT_CONTROL_MODE 7)), rfl⟩
    · have hne : pyEq (PyVal.int e) (PyVal.int 7) = false := by
        simp only [pyEq, isinstanceNum, Bool.and_self, if_pos, toRat, beq_eq_false_iff_ne,
          ne_eq, Int.cast_inj]
        exact_mod_cast h7
      rw [failsafeBlock_not_seven _ _ _ hne]
      exact ⟨Store.get_set_same (storageDecodeWrites st.data regs) "ext_control_mode"
        (PyVal.str (STORAGE_EXT_CONTROL_MODE e)), rfl⟩

/-- Witness for C4: a fresh hub decoding raw mode 0 caches the auto label;
a hub with a cached label keeps it unchanged while decoding raw mode 2. -/
theorem ext_mode_computed_once_witness :
    (read_inverter_storage_data ⟨Store.empty, 0, []⟩ [0, 0, 0, 0]).1.data
      "ext_control_mode" = some (PyVal.str (STORAGE_EXT_CONTROL_MODE 0)) ∧
    (read_inverter_storage_data
        ⟨Store.empty.set "ext_control_mode" (PyVal.str (STORAGE_EXT_CONTROL_MODE 0)), 0, []⟩
        [0, 0, 0, 2]).1.data "ext_control_mode" =
      some (PyVal.str (STORAGE_EXT_CONTROL_MODE 0)) :=
  ⟨((ext_mode_computed_once ⟨Store.empty, 0, []⟩ [0, 0, 0, 0]).2 rfl 0 (by decide)
      (by simp)).1,
   ((ext_mode_computed_once
        ⟨Store.empty.set "ext_control_mode" (PyVal.str (STORAGE_EXT_CONTROL_MODE 0)), 0, []⟩
        [0, 0, 0, 2]).1 (STORAGE_EXT_CONTROL_MODE 0)
      (Store.get_set_same Store.empty "ext_control_mode"
        (PyVal.str (STORAGE_EXT_CONTROL_MODE 0)))).1⟩

/-- A hub whose cached extended control mode is the calibrating label (as
every cycle after the one that computed it sees it). -/
def stCalibrating : HubState :=
  ⟨Store.empty.set "ext_control_mode" (PyVal.str (STORAGE_EXT_CONTROL_MODE 7)), 7, []⟩

/-- Storage registers with raw control mode 2 (offset 3) and state-of-charge
word 10000 (offset 6), i.e. soc exactly 100.0%; remaining words zero. -/
def regsCalibDischarge : List ℕ := [0, 0, 0, 2, 0, 0, 10000]

/-- C1 counterexample: with the cached extended mode equal to the
calibrating *label*, raw control mode 2 and soc exactly 100, the storage
decode issues **no** register write at all — the failsafe does not run,
because the guard compares the cached string label against the integer 7
(only the decode that freshly computes the mode sees the int).  The claim
requires a force-commanded discharge mode with a 0% discharge-rate limit
here. -/
theorem calibration_failsafe_counterexample :
    stCalibrating.data "ext_control_mode" = some (PyVal.str (STORAGE_EXT_CONTROL_MODE 7)) ∧
    regsCalibDischarge.getD 3 0 = 2 ∧
    (read_inverter_storage_data stCalibrating regsCalibDischarge).1.data "soc" =
      some (PyVal.float 100) ∧
    (read_inverter_storage_data stCalibrating regsCalibDischarge).1.writes = [] := by
  have h100 : calculate_value (PyVal.int 10000) (PyVal.int (-2)) 2 = PyVal.float 100 := by
    norm_num [calculate_value, is_numeric, isinstanceNum, isinstanceBool, toRat, powTen,
      pyRound, pyRoundInt]
  refine ⟨rfl, rfl, ?_, ?_⟩ <;>
    simp [read_inverter_storage_data, storageDecodeWrites, failsafeBlock, stCalibrating,
      regsCalibDischarge, Store.set, Store.get, Store.empty, pyEq, int16, h100,
      STORAGE_EXT_CONTROL_MODE, optStr, STORAGE_CONTROL_MODE, CHARGE_STATUS,
      CHARGE_GRID_STATUS, isinstanceNum, isinstanceBool, toRat]

/-- C1 amended: the calibration failsafe can act only on the single storage
decode that *freshly computes* the extended mode (no cached label): on
every decode where a cached label string is present the guard
`ext_control_mode == 7` compares a string to an int and the failsafe emits
no register write.  A freshly computed calibrating mode forces raw mode ∈
{1, 3}, so the claim's raw-mode-2/soc-100 branch (whose action is in fact
`change_settings(1, 0, 100, 0)`: control mode 1, charge rate 0%, discharge
rate 100%) is unreachable; the raw-mode-3/soc ≤ 5 branch acts as the claim
states on that one decode: force-command auto mode (mode 0, rates
100%/100%), set the minimum reserve register to 30% (3000 hundredths), and
reset the cached extended mode to auto. -/
theorem calibration_failsafe_amended (st : HubState) (regs : List ℕ) :
    (∀ s, st.data "ext_control_mode" = some (PyVal.str s) →
        (read_inverter_storage_data st regs).1.writes = st.writes) ∧
    (deriveExtMode (regs.getD 3 0) (int16 (regs.getD 10 0)) (int16 (regs.getD 11 0)) =
        some 7 → regs.getD 3 0 = 1 ∨ regs.getD 3 0 = 3) ∧
    (st.data "ext_control_mode" = Option.none →
        regs.getD 3 0 = 3 →
        int16 (regs.getD 11 0) = 0 →
        pyLe (calculate_value (PyVal.int (regs.getD 6 0)) (PyVal.int (-2)) 2)
          (PyVal.int 5) = true →
        (read_inverter_storage_data st regs).1.writes =
          st.writes ++ [(StorageReg.ctrlMode, 0), (StorageReg.chargeRate, 10000),
            (StorageReg.dischargeRate, 10000), (StorageReg.minimumReserve, 3000)] ∧
        (read_inverter_storage_data st regs).1.data "ext_control_mode" =
          some (PyVal.str (STORAGE_EXT_CONTROL_MODE 0)) ∧
        (read_inverter_storage_data st regs).1.storageExtMode = 0) := by
  refine ⟨?_, deriveExtMode_seven _ _ _, ?_⟩
  · intro s hs
    have hd : (storageDecodeWrites st.data regs).get "ext_control_mode" = PyVal.str s := by
      rw [Store.get, storageDecodeWrites_ext, hs]
      rfl
    rw [read_storage_cached_eq st regs (PyVal.str s) hd (by simp),
      failsafeBlock_not_seven _ _ _ (pyEq_str_int s 7)]
  · intro hnone hraw hcp hle
    have hd : (storageDecodeWrites st.data regs).get "ext_control_mode" = PyVal.none := by
      rw [Store.get, storageDecodeWrites_ext, hnone]
      rfl
    have hsoc :
        ((storageDecodeWrites st.data regs).set "ext_control_mode"
            (PyVal.str (STORAGE_EXT_CONTROL_MODE 7))).get "soc" =
          calculate_value (PyVal.int (regs.getD 6 0)) (PyVal.int (-2)) 2 := by
      rw [Store.get, Store.get_set_ne _ _ _ _ (by decide), storageDecodeWrites_soc]
      rfl
    have he : deriveExtMode (regs.getD 3 0) (int16 (regs.getD 10 0))
        (int16 (regs.getD 11 0)) = some 7 := by
      rw [hraw, hcp, deriveExtMode]
      norm_num
    rw [read_storage_fresh_eq st regs 7 hd he]
    have h77 : pyEq (PyVal.int 7) (PyVal.int 7) = true := by decide
    simp only [failsafeBlock, h77, eq_self_iff_true, if_true]
    split_ifs with h2 h3
    · exact absurd h2.1 (by omega)
    · refine ⟨?_, ?_, rfl⟩
      · show (set_minimum_reserve (set_auto_mode _) 30).writes = _
        rw [set_auto_then_reserve_writes]
      · show ((set_minimum_reserve (set_auto_mode
            { data := (storageDecodeWrites st.data regs).set "ext_control_mode"
                (PyVal.str (STORAGE_EXT_CONTROL_MODE 7)),
              storageExtMode := 7, writes := st.writes }) 30).data.set "ext_control_mode"
            (PyVal.str (STORAGE_EXT_CONTROL_MODE 0))) "ext_control_mode" =
          some (PyVal.str (STORAGE_EXT_CONTROL_MODE 0))
        exact Store.get_set_same _ _ _
    · exfalso
      refine h3 ⟨hraw, ?_⟩
      show pyLe (((storageDecodeWrites st.data regs).set "ext_control_mode"
          (PyVal.str (STORAGE_EXT_CONTROL_MODE 7))).get "soc") (PyVal.int 5) = true
      rw [hsoc]
      exact hle

/-- Witness for C1 at a concrete fresh-calibrating decode: empty cache, raw
mode 3, charge-power word 0, state-of-charge word 400 (soc 4.0 ≤ 5): the
decode emits exactly the auto-mode force-command plus the 30% minimum
reserve, and resets the cached mode to auto. -/
theorem calibration_failsafe_amended_witness :
    (read_inverter_storage_data ⟨Store.empty, 0, []⟩ [0, 0, 0, 3, 0, 0, 400]).1.writes =
      [(StorageReg.ctrlMode, 0), (StorageReg.chargeRate, 10000),
        (StorageReg.dischargeRate, 10000), (StorageReg.minimumReserve, 3000)] ∧
    (read_inverter_storage_data ⟨Store.empty, 0, []⟩ [0, 0, 0, 3, 0, 0, 400]).1.storageExtMode
      = 0 := by
  have h := (calibration_failsafe_amended ⟨Store.empty, 0, []⟩ [0, 0, 0, 3, 0, 0, 400]).2.2
    rfl (by decide) (by decide)
    (by norm_num [calculate_value, is_numeric, isinstanceNum, isinstanceBool, toRat,
      powTen, pyRound, pyRoundInt, pyLe])
  exact ⟨by rw [h.1]; rfl, h.2.2⟩

end FroniusModbus
